import Mathlib

/-!
# Verification of the smart-fetch request dispatch engine and decoding pipeline

Shallow embedding of `src/index.ts` (class `Fetcher`) and `src/utils.ts` of the
hyurl/fetch repository.  JavaScript strings become `String`, header objects
become association lists, byte buffers become `List Nat`, `undefined` becomes
`none`, and JavaScript truthiness on strings (`undefined` and `""` are falsy)
is made explicit through `jsStr`.  The external black-box collaborators
(jschardet, jschardet-eastasia, iconv-lite, `JSON.parse`, xml2js) are
parameters gathered in an `Externals` record; a partial external call returns
`Option` with `none` standing for a thrown exception.
-/

namespace SmartFetch

/-- JavaScript string truthiness: `undefined` (`none`) and `""` are falsy.
`jsStr o` is `some s` exactly when `o` holds a non-empty string. -/
def jsStr (o : Option String) : Option String :=
  match o with
  | some s => if s = "" then none else some s
  | none => none

/-- Whether `pat` occurs as a contiguous sublist of `l`. -/
def hasSubList (l pat : List Char) : Bool :=
  pat.isPrefixOf l ||
    match l with
    | [] => false
    | _ :: rest => hasSubList rest pat

/-- Substring test, modelling `RegExp.prototype.test` for the plain-text
alternations used by the source's patterns. -/
def strContainsSub (s pat : String) : Bool :=
  hasSubList s.data pat.data

/-- `String.prototype.toLowerCase` for the ASCII header names the source
lower-cases. -/
def lowerStr (s : String) : String :=
  String.mk (s.data.map Char.toLower)

/-- `String.prototype.split(sep)` for a single-character separator (the
source only splits on `/`, `;`, `=` and `,`). -/
def splitChar (sep : Char) : List Char → List (List Char)
  | [] => [[]]
  | c :: rest =>
    let r := splitChar sep rest
    if c = sep then [] :: r
    else
      match r with
      | [] => [[c]]
      | h :: t => (c :: h) :: t

/-- String-level wrapper of `splitChar`. -/
def splitOnCh (s : String) (sep : Char) : List String :=
  (splitChar sep s.data).map String.mk

/-- The whitespace characters relevant to `String.prototype.trim` in the
source's usage. -/
def isWhite (c : Char) : Bool :=
  c = ' ' || c = '\t' || c = '\n' || c = '\r'

/-- `String.prototype.trim`: strip leading and trailing whitespace. -/
def trimStr (s : String) : String :=
  String.mk (((s.data.dropWhile isWhite).reverse.dropWhile isWhite).reverse)

/-- Header maps (`Headers` in `src/types.ts`): JavaScript objects from field
names to values, modelled as association lists. -/
abbrev HMap := List (String × String)

/-- Exact-key property access `headers[k]`, as used by
`resHeaders["content-type"]` in `resolveContentType` (utils.ts line 86). -/
def lookupStr (h : HMap) (k : String) : Option String :=
  List.lookup k h

/-- `getHeader` (utils.ts lines 116-127): lower-cases the queried field and
scans the header names case-insensitively, returning the first match. -/
def getHeader (headers : HMap) (field : String) : Option String :=
  let f := lowerStr field
  headers.findSome? fun p => if lowerStr p.1 = f then some p.2 else none

/-- `acceptType.split(/,\s*/)[0]`: the part of the string before the first
comma (the regex only strips spaces after commas, which never affects the
first element). -/
def firstCommaPart (s : String) : String :=
  (splitOnCh s ',').headD s

/-- The `{type, prefix, charset}` record produced by `extractContentType`
(utils.ts lines 129-156).  The source's `prefix` field is named `pfx` here. -/
structure CTInfo where
  type : String
  pfx : String
  charset : Option String
deriving DecidableEq, Repr

/-- `extractContentType` (utils.ts lines 129-156): split on `/` to get the
prefix, split the remainder on `;` to get the type, and read an optional
`charset=` parameter.  The source's `if (type[1])` and `if (pair[1])`
truthiness checks are modelled with `jsStr`. -/
def extractContentType (contentType : String) : CTInfo :=
  if contentType = "" then { type := "", pfx := "", charset := none }
  else
    let parts := splitOnCh contentType '/'
    let pfx := parts.headD ""
    match jsStr parts[1]? with
    | none => { type := "", pfx := pfx, charset := none }
    | some rest =>
      let pair := splitOnCh rest ';'
      let ty := pair.headD ""
      match jsStr pair[1]? with
      | none => { type := ty, pfx := pfx, charset := none }
      | some csPart => { type := ty, pfx := pfx, charset := (splitOnCh csPart '=')[1]? }

/-- `resolveContentType` (utils.ts lines 82-93).  The response `content-type`
header is read by exact property access; the request `accept` header is read
case-insensitively via `getHeader`; `||` falsiness on empty strings is
preserved. -/
def resolveContentType (resH reqH : HMap) : CTInfo :=
  let contentType := (lookupStr resH "content-type").getD ""
  let acceptType : Option String :=
    match getHeader reqH "accept" with
    | none => none
    | some a => if a = "" then some a else some (firstCommaPart a)
  let chosen :=
    if contentType = "" then
      match acceptType with
      | some a => if a = "" then "text/plain; charset=UTF-8" else a
      | none => "text/plain; charset=UTF-8"
    else contentType
  extractContentType chosen

/-- The priority chain of §4.2 of the specification, written from its words:
take the response `content-type`; when absent (or empty) fall back to the
first comma-separated value of the request's `accept` header; when that is
also absent (or empty) default to `text/plain; charset=UTF-8`. -/
def specContentTypeChain (resH reqH : HMap) : String :=
  match jsStr (lookupStr resH "content-type") with
  | some ct => ct
  | none =>
    match jsStr ((getHeader reqH "accept").map firstCommaPart) with
    | some a => a
    | none => "text/plain; charset=UTF-8"

/-- Parsed JSON values, the result type of the black-box `JSON.parse` and
xml2js collaborators. -/
inductive Json where
  | null
  | num (n : Int)
  | str (s : String)
  | obj (fields : List (String × Json))

/-- The decoded payload carried in a response's `data` field: a JavaScript
string, a parsed object, or raw bytes (a `Buffer`). -/
inductive MsgData where
  | text (s : String)
  | json (j : Json)
  | buffer (b : List Nat)

/-- The external black-box collaborators of the decoding pipeline (§1 of the
specification treats them as interfaces): the two charset detectors
(`jschardet.detect` and `jschardet-eastasia.detect`, whose `.encoding` may be
null), `iconv.decode` (may throw: `none`), `JSON.parse` and `parseXML`
(may throw: `none`). -/
structure Externals where
  detectGeneral : List Nat → Option String
  detectEastAsia : List Nat → Option String
  iconvDecode : List Nat → String → Option String
  jsonParse : String → Option Json
  xmlParse : String → Option Json

/-- The fields of a `Request` (src/types.ts) used by the claims.  `retries`
defaults to 0 and `responseType` / `responseCharset` are optional overrides. -/
structure Req where
  url : String
  method : String
  headers : HMap
  retries : Nat
  responseType : Option String
  responseCharset : Option String

/-- A `Response` (src/types.ts): outcome of one transport attempt. -/
structure Resp where
  ok : Bool
  url : String
  status : Nat
  statusText : String
  headers : HMap
  cookies : List String
  type : String
  data : MsgData

/-- Charset resolution of `makeRequest` (index.ts lines 347-356):
`request.responseCharset || resInfo.charset || (() => detect...)()`.
JavaScript evaluates the `||` chain eagerly, so the detector IIFE runs
whenever both earlier operands are falsy — the boolean records whether a
detector was invoked.  The East-Asian detector is chosen when the request's
`accept-language` mentions zh/jp/ko. -/
def resolveCharset (ext : Externals) (respCharset clCharset : Option String)
    (reqLang : String) (bytes : List Nat) : Option String × Bool :=
  match jsStr respCharset with
  | some c => (some c, false)
  | none =>
    match jsStr clCharset with
    | some c => (some c, false)
    | none =>
      if strContainsSub reqLang "zh" || strContainsSub reqLang "jp"
          || strContainsSub reqLang "ko" then
        (ext.detectEastAsia bytes, true)
      else
        (ext.detectGeneral bytes, true)

/-- Result of the decoding section of `makeRequest`: `result = none` models a
thrown error propagating to the caller, `result = some (type, data)` a
normally computed `type` / `data` pair; `detectorUsed` records whether a
charset detector was invoked. -/
structure DecodeOut where
  result : Option (String × MsgData)
  detectorUsed : Bool

/-- The forced-`responseType` branch of `makeRequest` (index.ts lines
368-408), for `respType` the forced `'text'` or `'json'` and `clType` the
classifier's type.  `none` models the TypeError that the source throws (or
re-throws from its catch) when no usable charset exists, `iconv.decode`
fails, or the JSON/XML parse fails. -/
def forcedDecode (ext : Externals) (respType clType : String)
    (charset : Option String) (bytes : List Nat) : Option (String × MsgData) :=
  let step1 : Option String :=
    if bytes.length = 0 then some ""
    else
      match jsStr charset with
      | some c => ext.iconvDecode bytes c
      | none => none
  match step1 with
  | none => none
  | some s =>
    if respType = "json" then
      if clType = "xml" then
        match ext.xmlParse s with
        | some j => some ("json", MsgData.json j)
        | none => none
      else
        match ext.jsonParse s with
        | some j => some ("json", MsgData.json j)
        | none => none
    else some ("text", MsgData.text s)

/-- The auto-detect branch of `makeRequest` (index.ts lines 409-438): only
attempt text decoding for a `text` / `application` / `*` prefix; a
zero-length body becomes empty text; any decode or parse failure is caught
and the result downgrades to a buffer with the original bytes.  (Here the
source's running `type` equals the classifier type, as no `responseType` was
forced.) -/
def autoDecode (ext : Externals) (ri : CTInfo) (charset : Option String)
    (bytes : List Nat) : Option (String × MsgData) :=
  if ri.pfx = "text" || ri.pfx = "application" || ri.pfx = "*" then
    if bytes.length = 0 then some ("text", MsgData.text "")
    else
      match jsStr charset with
      | some c =>
        match ext.iconvDecode bytes c with
        | none => some ("buffer", MsgData.buffer bytes)
        | some s =>
          if ri.type = "json" then
            match ext.jsonParse s with
            | some j => some ("json", MsgData.json j)
            | none => some ("buffer", MsgData.buffer bytes)
          else if ri.type = "xml" then
            match ext.xmlParse s with
            | some j => some ("json", MsgData.json j)
            | none => some ("buffer", MsgData.buffer bytes)
          else some ("text", MsgData.text s)
      | none => some ("buffer", MsgData.buffer bytes)
  else some ("buffer", MsgData.buffer bytes)

/-- The decoding section of `Fetcher.makeRequest` (index.ts lines 344-439):
classify via `resolveContentType`, resolve the charset (the detector IIFE in
the `||` chain runs eagerly), then either pass raw bytes through (`buffer`,
or `octet-stream` with no forced type), decode under a forced `responseType`
(errors propagate), or auto-detect.  `reqLang` is
`request.headers["accept-language"]`, always a string on the real call path
because `Fetcher.request` (lines 238-245) merges in a default. -/
def decodeBody (ext : Externals) (req : Req) (resH : HMap) (reqLang : String)
    (bytes : List Nat) : DecodeOut :=
  let resInfo := resolveContentType resH req.headers
  let type0 :=
    match jsStr req.responseType with
    | some t => t
    | none => resInfo.type
  let cs := resolveCharset ext req.responseCharset resInfo.charset reqLang bytes
  if type0 = "buffer" || (type0 = "octet-stream" && (jsStr req.responseType).isNone) then
    { result := some ("buffer", MsgData.buffer bytes), detectorUsed := cs.2 }
  else
    match jsStr req.responseType with
    | some t => { result := forcedDecode ext t resInfo.type cs.1 bytes, detectorUsed := cs.2 }
    | none => { result := autoDecode ext resInfo cs.1 bytes, detectorUsed := cs.2 }

/-- `fixResponse` (utils.ts lines 95-114): trim string data; when the request
declared a `json` accept type, opportunistically re-parse the text as JSON and
upgrade the type on success, keeping the text on failure. -/
def fixResponse (ext : Externals) (res : Resp) (req : Req) : Resp :=
  match res.data with
  | MsgData.text s =>
    let s2 := trimStr s
    let res2 := { res with data := MsgData.text s2 }
    match jsStr (getHeader req.headers "accept") with
    | some a =>
      if (extractContentType (firstCommaPart a)).type = "json" then
        match ext.jsonParse s2 with
        | some j => { res2 with data := MsgData.json j, type := "json" }
        | none => res2
      else res2
    | none => res2
  | _ => res

/-- `RetryableStatuses` (index.ts line 41). -/
def RetryableStatuses : List Nat := [408, 409, 425, 500, 502, 503, 504]

/-- `HangUpPattern` (index.ts line 42):
`/net::ERR_EMPTY_RESPONSE|socket hang up/` tested against `String(error)`.
The test is a plain substring alternation, unaffected by the `"Error: "`
display text that `String(error)` puts in front of the message. -/
def hangUp (msg : String) : Bool :=
  strContainsSub msg "net::ERR_EMPTY_RESPONSE" || strContainsSub msg "socket hang up"

/-- `UnretryablePattern` (index.ts lines 43-47): a case-insensitive substring
alternation over the connection-refused, too-many-redirects,
internet-disconnected and DNS-failure signatures. -/
def unretryable (msg : String) : Bool :=
  let m := lowerStr msg
  strContainsSub m "err_connection_refused" || strContainsSub m "econnrefused"
    || strContainsSub m "err_too_many_redirects" || strContainsSub m "max redirects"
    || strContainsSub m "err_internet_disconnected" || strContainsSub m "enotfound"

/-- An error thrown by the transport callback.  `message` drives the pattern
tests; the boolean fields model the presence of the axios-specific properties
that `dispatch` deletes (`code`, `config`, `isAxiosError`, `toJSON`). -/
structure Err where
  message : String
  isAxiosError : Bool
  hasCode : Bool
  hasConfig : Bool
  hasToJSON : Bool

/-- One settled transport attempt: the `handle` promise either fulfilled with
a response or rejected with an error (index.ts lines 147-151). -/
inductive Outcome where
  | resp (r : Resp)
  | err (e : Err)

/-- The retry classification of `doRequest` (index.ts lines 153-169): a
response retries iff it is not ok, budget remains, and the status is
retryable; a hang-up error retries only on the very first attempt; any other
error retries iff budget remains and no unretryable signature matches. -/
def shouldRetry (o : Outcome) (attempt retries : Nat) : Bool :=
  match o with
  | Outcome.resp r =>
    !r.ok && decide (attempt < retries) && RetryableStatuses.contains r.status
  | Outcome.err e =>
    if hangUp e.message then decide (attempt < 1)
    else decide (attempt < retries) && !unretryable e.message

/-- The `doRequest` retry loop of `Fetcher.dispatch` (index.ts lines
129-205), with the transport given as a function from the 0-based attempt
index to that attempt's outcome.  Returns the number of transport invocations
together with the final attempt's outcome.  `fuel` bounds the recursion; by
`shouldRetry_lt` a retry is only scheduled while `attempt < max retries 1`,
so `dispatchAux_fuel_ext` shows any fuel of at least `max retries 1` computes
the loop's true fixpoint. -/
def dispatchAux (t : Nat → Outcome) (retries : Nat) : Nat → Nat → Nat × Outcome
  | 0, k => (1, t k)
  | fuel + 1, k =>
    let o := t k
    if shouldRetry o k retries then
      let r := dispatchAux t retries fuel (k + 1)
      (r.1 + 1, r.2)
    else (1, o)

/-- The structured rejection context built at index.ts lines 176-193: the
error (after any axios-field stripping and hang-up message rewriting), with
`request` and `response` attached. -/
structure RejectInfo where
  err : Err
  request : Req
  response : Option Resp

/-- Error finalization before rejection (index.ts lines 176-193): only when
`error["isAxiosError"]` is truthy are the axios diagnostic fields deleted and,
for a hang-up cause, the message rewritten to the canonical
`net::ERR_EMPTY_RESPONSE at <url>` string.  The attached `response` is the
current (failed) attempt's response variable, which is undefined whenever an
error was thrown, hence always `none` here. -/
def finalizeError (e : Err) (req : Req) : RejectInfo :=
  let isGone := hangUp e.message
  let e2 :=
    if e.isAxiosError then
      let e3 : Err :=
        { message := e.message, isAxiosError := false, hasCode := false
          hasConfig := false, hasToJSON := false }
      if isGone then
        { e3 with message := "net::ERR_EMPTY_RESPONSE at " ++ req.url }
      else e3
    else e
  { err := e2, request := req, response := none }

/-- How a dispatch settles: the promise resolves with a (post-processed)
response or rejects with a finalized error. -/
inductive Settlement where
  | resolved (r : Resp)
  | rejected (ri : RejectInfo)

/-- Whether a settlement is a rejection. -/
def Settlement.isRejected : Settlement → Bool
  | Settlement.resolved _ => false
  | Settlement.rejected _ => true

/-- `Fetcher.dispatch` with `magicVars = false` (index.ts lines 126-205):
run the retry loop, then either resolve with `fixResponse(response, request)`
or reject with the finalized error.  The first component counts transport
invocations. -/
def dispatchSettle (ext : Externals) (t : Nat → Outcome) (req : Req) :
    Nat × Settlement :=
  let r := dispatchAux t req.retries (max req.retries 1) 0
  match r.2 with
  | Outcome.resp res => (r.1, Settlement.resolved (fixResponse ext res req))
  | Outcome.err e => (r.1, Settlement.rejected (finalizeError e req))

/-- `constructProxy`'s input: the `proxy` request option is either a URL
string or an axios proxy config object (utils.ts line 56). -/
structure ProxyCfg where
  protocol : String
  host : String
  port : Nat
  auth : Option (String × String)

/-- A `proxy` option value. -/
inductive ProxyInput where
  | str (s : String)
  | cfg (p : ProxyCfg)

/-- `constructProxy` (utils.ts lines 56-71).  The string branch parses the
URL and assembles a local proxy object but contains no `return` statement, so
for every string input the function falls off its end and returns
`undefined`; only the object branch returns its argument. -/
def constructProxy : ProxyInput → Option ProxyCfg
  | ProxyInput.str _ => none
  | ProxyInput.cfg p => some p

/-- The proxy setup step of `makeRequest` (index.ts lines 299-307): it reads
`proxy.host` and `proxy.port` from `constructProxy`'s result, so an
`undefined` result makes the property access throw a TypeError (`none`);
otherwise the `host:port` proxy URL string is produced. -/
def makeRequestProxyUrl (p : ProxyInput) : Option String :=
  match constructProxy p with
  | none => none
  | some c =>
    let base := c.host ++ ":" ++ toString c.port
    if c.protocol = "https:" then some ("https://" ++ base)
    else some ("http://" ++ base)

/-! ### Concrete instances used by witnesses and counterexamples -/

/-- Trivial externals: every detector and parser fails. -/
def ext0 : Externals :=
  { detectGeneral := fun _ => none, detectEastAsia := fun _ => none
    iconvDecode := fun _ _ => none, jsonParse := fun _ => none
    xmlParse := fun _ => none }

/-- A normalized request with `retries = 0` and no decoding overrides. -/
def req0 : Req :=
  { url := "http://example.com/", method := "GET", headers := []
    retries := 0, responseType := none, responseCharset := none }

/-- A request with `retries = 1`. -/
def req1 : Req :=
  { url := "http://example.com/", method := "GET", headers := []
    retries := 1, responseType := none, responseCharset := none }

/-- A request with `retries = 2`. -/
def req2 : Req :=
  { url := "http://example.com/", method := "GET", headers := []
    retries := 2, responseType := none, responseCharset := none }

/-- A request forcing `responseType = "text"`. -/
def reqTextMode : Req :=
  { url := "http://example.com/", method := "GET", headers := []
    retries := 0, responseType := some "text", responseCharset := none }

/-- A 503 response with `ok = false` (a retryable status). -/
def resp503 : Resp :=
  { ok := false, url := "http://example.com/", status := 503
    statusText := "Service Unavailable", headers := [], cookies := []
    type := "text", data := MsgData.text "" }

/-- An axios hang-up error with all diagnostic fields present. -/
def axiosHangErr : Err :=
  { message := "socket hang up", isAxiosError := true, hasCode := true
    hasConfig := true, hasToJSON := true }

/-- A hang-up error that is not an axios error but carries a `code` field. -/
def hangNonAxios : Err :=
  { message := "socket hang up", isAxiosError := false, hasCode := true
    hasConfig := false, hasToJSON := false }

/-- An axios DNS-failure error (matches the unretryable pattern only). -/
def dnsErr : Err :=
  { message := "getaddrinfo ENOTFOUND example.com", isAxiosError := true
    hasCode := true, hasConfig := true, hasToJSON := true }

/-- An error whose message matches both the hang-up pattern and the
unretryable pattern. -/
def bothErr : Err :=
  { message := "socket hang up ECONNREFUSED", isAxiosError := false
    hasCode := false, hasConfig := false, hasToJSON := false }

/-- Response headers announcing `text/html` with no charset parameter. -/
def hdrsHtml : HMap := [("content-type", "text/html")]

/-- UTF-8 bytes of the seven-character JSON text for the C8 scenario. -/
def c8Bytes : List Nat := [123, 34, 97, 34, 58, 49, 125]

/-- The JSON source text of the C8 scenario. -/
def c8Text : String := "\x7b\"a\":1\x7d"

/-- The parsed object of the C8 scenario. -/
def c8Json : Json := Json.obj [("a", Json.num 1)]

/-- The C8 scenario request: no decoding overrides, `accept:
application/json`. -/
def c8Req : Req :=
  { url := "http://example.com/", method := "GET"
    headers := [("accept", "application/json")]
    retries := 0, responseType := none, responseCharset := none }

/-- Externals for the C8 scenario witness: the general detector reports
UTF-8, under which the scenario bytes decode to the scenario text. -/
def extC8 : Externals :=
  { detectGeneral := fun _ => some "utf-8", detectEastAsia := fun _ => none
    iconvDecode := fun b _ => if b = c8Bytes then some c8Text else none
    jsonParse := fun s => if s = c8Text then some c8Json else none
    xmlParse := fun _ => none }

/-- A buffer-typed response used by the C10 witness. -/
def respBuf : Resp :=
  { ok := true, url := "http://example.com/", status := 200
    statusText := "OK", headers := [], cookies := []
    type := "buffer", data := MsgData.buffer [7] }

/-! ### Helper lemmas -/

/-- A retry is only ever scheduled below `max retries 1` attempts. -/
theorem shouldRetry_lt {o : Outcome} {k retries : Nat}
    (h : shouldRetry o k retries = true) : k < max retries 1 := by
  cases o with
  | resp r =>
    simp only [shouldRetry, Bool.and_eq_true, decide_eq_true_eq] at h
    exact lt_of_lt_of_le h.1.2 (le_max_left _ _)
  | err e =>
    simp only [shouldRetry] at h
    by_cases hg : hangUp e.message
    · rw [if_pos hg] at h
      exact lt_of_lt_of_le (by simpa using h) (le_max_right _ _)
    · rw [if_neg hg] at h
      simp only [Bool.and_eq_true, decide_eq_true_eq] at h
      exact lt_of_lt_of_le h.1 (le_max_left _ _)

/-- `shouldRetry` on a response outcome. -/
theorem shouldRetry_resp (r : Resp) (k retries : Nat) :
    shouldRetry (Outcome.resp r) k retries =
      (!r.ok && decide (k < retries) && RetryableStatuses.contains r.status) := rfl

/-- `shouldRetry` on an error outcome. -/
theorem shouldRetry_err (e : Err) (k retries : Nat) :
    shouldRetry (Outcome.err e) k retries =
      if hangUp e.message then decide (k < 1)
      else decide (k < retries) && !unretryable e.message := rfl

/-- `dispatchAux` at fuel 0. -/
theorem dispatchAux_zero (t : Nat → Outcome) (retries k : Nat) :
    dispatchAux t retries 0 k = (1, t k) := rfl

/-- One-step unfolding of the retry loop. -/
theorem dispatchAux_succ (t : Nat → Outcome) (retries fuel k : Nat) :
    dispatchAux t retries (fuel + 1) k =
      if shouldRetry (t k) k retries then
        ((dispatchAux t retries fuel (k + 1)).1 + 1,
         (dispatchAux t retries fuel (k + 1)).2)
      else (1, t k) := rfl

/-- Fuel extension: above the `max retries 1` threshold the fuelled loop is
stable, so `dispatchAux` with fuel `max retries 1` computes the source
loop's true behaviour. -/
theorem dispatchAux_fuel_ext (t : Nat → Outcome) (retries : Nat) :
    ∀ fuel k, max retries 1 ≤ fuel + k →
      dispatchAux t retries (fuel + 1) k = dispatchAux t retries fuel k := by
  intro fuel
  induction fuel with
  | zero =>
    intro k hk
    have hs : shouldRetry (t k) k retries = false := by
      by_contra hcon
      have hlt : k < max retries 1 := shouldRetry_lt (by simpa using hcon)
      omega
    rw [dispatchAux_succ, if_neg (by simp [hs]), dispatchAux_zero]
  | succ n ih =>
    intro k hk
    rw [dispatchAux_succ t retries (n + 1) k, dispatchAux_succ t retries n k,
      ih (k + 1) (by omega)]

/-- With a transport that always returns the same not-ok retryable-status
response, the loop started at attempt `k` performs `retries - k + 1` further
invocations and ends on that response. -/
theorem dispatchAux_const_resp (t : Nat → Outcome) (r : Resp) (N : Nat)
    (h2 : r.ok = false) (h3 : RetryableStatuses.contains r.status = true)
    (ht : ∀ k, t k = Outcome.resp r) :
    ∀ fuel k, N ≤ fuel + k →
      dispatchAux t N fuel k = (N - k + 1, Outcome.resp r) := by
  intro fuel
  induction fuel with
  | zero =>
    intro k hk
    have hz : N - k = 0 := by omega
    rw [dispatchAux_zero, ht k, hz]
  | succ n ih =>
    intro k hk
    by_cases hkN : k < N
    · have hs : shouldRetry (t k) k N = true := by
        rw [ht k, shouldRetry_resp, h2, h3]
        simp [hkN]
      have hrec := ih (k + 1) (by omega)
      rw [dispatchAux_succ, if_pos (by simp [hs]), hrec]
      have harith : N - k = (N - (k + 1)) + 1 := by omega
      simp [harith]
    · have hs : shouldRetry (t k) k N = false := by
        rw [ht k, shouldRetry_resp]
        have hd : decide (k < N) = false := by simp [hkN]
        rw [hd]
        simp
      have hz : N - k = 0 := by omega
      rw [dispatchAux_succ, if_neg (by simp [hs]), ht k, hz]

/-- The charset detector runs exactly when neither `request.responseCharset`
nor the classifier charset is a non-empty string. -/
theorem resolveCharset_used (ext : Externals) (rc cc : Option String)
    (lang : String) (bytes : List Nat) :
    (resolveCharset ext rc cc lang bytes).2 = true ↔
      (jsStr rc = none ∧ jsStr cc = none) := by
  cases h1 : jsStr rc with
  | some c => simp [resolveCharset, h1]
  | none =>
    cases h2 : jsStr cc with
    | some c => simp [resolveCharset, h1, h2]
    | none =>
      simp only [resolveCharset, h1, h2]
      split <;> simp

/-! ### C1 -/

/-- C1 counterexample: with `retries = 0` and a transport that always
returns a not-ok 503 response, `dispatch` makes exactly one invocation and
then RESOLVES with the (post-processed) final response — it does not reject,
because at index.ts lines 176-196 rejection only happens when the last
attempt threw an error, and here a response exists. -/
theorem C1_counterexample :
    dispatchSettle ext0 (fun _ => Outcome.resp resp503) req0 =
      (1, Settlement.resolved (fixResponse ext0 resp503 req0)) ∧
    (dispatchSettle ext0 (fun _ => Outcome.resp resp503) req0).2.isRejected = false := by
  exact ⟨rfl, rfl⟩

/-- C1 (amended): for every request with `retries = N` and a transport that
on every invocation returns the same response with `ok = false` and a status
in the retryable set, `dispatch` invokes the transport exactly `N + 1` times
and then resolves with the final (not-ok) response passed through
`fixResponse`; and a retry is scheduled iff the attempt's response is not
ok, the 0-based attempt index is below `retries`, and the status is in the
retryable set. -/
theorem C1_amended (ext : Externals) (req : Req) (r rx : Resp) (N k : Nat)
    (h1 : req.retries = N) (h2 : r.ok = false)
    (h3 : RetryableStatuses.contains r.status = true) :
    (dispatchSettle ext (fun _ => Outcome.resp r) req).1 = N + 1 ∧
    (dispatchSettle ext (fun _ => Outcome.resp r) req).2 =
      Settlement.resolved (fixResponse ext r req) ∧
    (shouldRetry (Outcome.resp rx) k N = true ↔
      (rx.ok = false ∧ k < N ∧ RetryableStatuses.contains rx.status = true)) := by
  have hmain := dispatchAux_const_resp (fun _ => Outcome.resp r) r N h2 h3
    (fun _ => rfl) (max N 1) 0 (by omega)
  refine ⟨?_, ?_, ?_⟩
  · simp [dispatchSettle, h1, hmain]
  · simp [dispatchSettle, h1, hmain]
  · rw [shouldRetry_resp]
    simp only [Bool.and_eq_true, decide_eq_true_eq, Bool.not_eq_true']
    constructor
    · rintro ⟨⟨hok, hlt⟩, hmem⟩
      exact ⟨hok, hlt, hmem⟩
    · rintro ⟨hok, hlt, hmem⟩
      exact ⟨⟨hok, hlt⟩, hmem⟩

/-- C1 witness: the amended statement at `retries = 2` and a constant 503
transport. -/
theorem C1_amended_witness :
    req2.retries = 2 ∧ resp503.ok = false ∧
    RetryableStatuses.contains resp503.status = true ∧
    ((dispatchSettle ext0 (fun _ => Outcome.resp resp503) req2).1 = 2 + 1 ∧
     (dispatchSettle ext0 (fun _ => Outcome.resp resp503) req2).2 =
       Settlement.resolved (fixResponse ext0 resp503 req2) ∧
     (shouldRetry (Outcome.resp resp503) 0 2 = true ↔
       (resp503.ok = false ∧ 0 < 2 ∧
        RetryableStatuses.contains resp503.status = true))) :=
  ⟨rfl, rfl, rfl, C1_amended ext0 req2 resp503 resp503 2 0 rfl rfl rfl⟩

/-! ### C2 -/

/-- C2: when the transport throws hang-up errors on attempts 0 and 1, the
dispatch makes exactly two invocations (one retry, independent of the
`retries` budget — including `retries = 0`) and then rejects with the second
error; and for any hang-up error, a retry is scheduled iff the 0-based
attempt index is below 1. -/
theorem C2_hangup_two_attempts (ext : Externals) (req : Req)
    (t : Nat → Outcome) (e0 e1 ex : Err) (k : Nat)
    (h0 : t 0 = Outcome.err e0) (hh0 : hangUp e0.message = true)
    (h1 : t 1 = Outcome.err e1) (hh1 : hangUp e1.message = true)
    (hhx : hangUp ex.message = true) :
    (dispatchSettle ext t req).1 = 2 ∧
    (dispatchSettle ext t req).2 =
      Settlement.rejected (finalizeError e1 req) ∧
    (shouldRetry (Outcome.err ex) k req.retries = true ↔ k < 1) := by
  have hs0 : shouldRetry (t 0) 0 req.retries = true := by
    rw [h0, shouldRetry_err, if_pos hh0]
    simp
  have hs1 : shouldRetry (t 1) 1 req.retries = false := by
    rw [h1, shouldRetry_err, if_pos hh1]
    simp
  have hm : max req.retries 1 = (max req.retries 1 - 1) + 1 := by omega
  have hstep : dispatchAux t req.retries (max req.retries 1) 0 =
      (2, Outcome.err e1) := by
    rw [hm, dispatchAux_succ, if_pos (by simp [hs0])]
    cases hdm : max req.retries 1 - 1 with
    | zero =>
      rw [dispatchAux_zero]
      simp [h1]
    | succ m =>
      rw [dispatchAux_succ]
      simp only [Nat.zero_add]
      rw [if_neg (by simp [hs1])]
      simp [h1]
  refine ⟨?_, ?_, ?_⟩
  · simp [dispatchSettle, hstep]
  · simp [dispatchSettle, hstep]
  · rw [shouldRetry_err, if_pos hhx]
    simp

/-- C2 witness: an always-hanging-up transport with `retries = 2` makes
exactly two invocations and rejects. -/
theorem C2_hangup_witness :
    (fun _ => Outcome.err axiosHangErr : Nat → Outcome) 0 =
      Outcome.err axiosHangErr ∧
    hangUp axiosHangErr.message = true ∧
    ((dispatchSettle ext0 (fun _ => Outcome.err axiosHangErr) req2).1 = 2 ∧
     (dispatchSettle ext0 (fun _ => Outcome.err axiosHangErr) req2).2 =
       Settlement.rejected (finalizeError axiosHangErr req2) ∧
     (shouldRetry (Outcome.err axiosHangErr) 0 req2.retries = true ↔ 0 < 1)) :=
  ⟨rfl, rfl, C2_hangup_two_attempts ext0 req2 (fun _ => Outcome.err axiosHangErr)
    axiosHangErr axiosHangErr axiosHangErr 0 rfl rfl rfl rfl rfl⟩

/-! ### C3 -/

/-- C3 counterexample: an error message matching the unretryable pattern can
also match the hang-up pattern, which index.ts line 157 tests FIRST; with
`retries = 1` the transport is then invoked twice, not once, so "never retry
an error matching an unretryable signature" does not hold as stated. -/
theorem C3_counterexample :
    unretryable bothErr.message = true ∧
    req1.retries = 1 ∧
    (dispatchSettle ext0 (fun _ => Outcome.err bothErr) req1).1 = 2 := by
  refine ⟨by decide, rfl, rfl⟩

/-- C3 (amended): when the transport's first attempt throws an error that
matches an unretryable signature and does NOT match the hang-up pattern
(which the source tests first), `dispatch` invokes the transport exactly
once and rejects immediately with that error, regardless of the retry
budget. -/
theorem C3_amended (ext : Externals) (req : Req) (t : Nat → Outcome) (e : Err)
    (_hbudget : 1 ≤ req.retries)
    (hun : unretryable e.message = true) (hhu : hangUp e.message = false)
    (ht : t 0 = Outcome.err e) :
    (dispatchSettle ext t req).1 = 1 ∧
    (dispatchSettle ext t req).2 = Settlement.rejected (finalizeError e req) := by
  have hs : shouldRetry (t 0) 0 req.retries = false := by
    rw [ht, shouldRetry_err, if_neg (by simp [hhu]), hun]
    simp
  have hm : max req.retries 1 = (max req.retries 1 - 1) + 1 := by omega
  have hstep : dispatchAux t req.retries (max req.retries 1) 0 =
      (1, Outcome.err e) := by
    rw [hm, dispatchAux_succ, if_neg (by simp [hs]), ht]
  constructor
  · simp [dispatchSettle, hstep]
  · simp [dispatchSettle, hstep]

/-- C3 witness: the amended statement for a DNS-failure error with
`retries = 2`. -/
theorem C3_amended_witness :
    1 ≤ req2.retries ∧ unretryable dnsErr.message = true ∧
    hangUp dnsErr.message = false ∧
    ((dispatchSettle ext0 (fun _ => Outcome.err dnsErr) req2).1 = 1 ∧
     (dispatchSettle ext0 (fun _ => Outcome.err dnsErr) req2).2 =
       Settlement.rejected (finalizeError dnsErr req2)) :=
  ⟨by decide, by decide, by decide,
    C3_amended ext0 req2 (fun _ => Outcome.err dnsErr) dnsErr (by decide)
      (by decide) (by decide) rfl⟩

/-! ### C5 -/

/-- C5: for every string-form proxy, `constructProxy` returns `undefined`
(its string branch builds a proxy object but has no return statement), so
`makeRequest`'s accesses to `proxy.host` / `proxy.port` throw and every
string-form proxy request fails, while object-form proxies are returned
unchanged. -/
theorem C5_constructProxy_string_undefined (s : String) (p : ProxyCfg) :
    constructProxy (ProxyInput.str s) = none ∧
    constructProxy (ProxyInput.cfg p) = some p ∧
    makeRequestProxyUrl (ProxyInput.str s) = none ∧
    (makeRequestProxyUrl (ProxyInput.cfg p)).isSome = true := by
  refine ⟨rfl, rfl, rfl, ?_⟩
  by_cases hp : p.protocol = "https:" <;>
    simp [makeRequestProxyUrl, constructProxy, hp]

/-! ### C9 -/

/-- C9 counterexample: when the final error is a hang-up but not an axios
error (`isAxiosError` falsy), the rejection still carries its `code`-style
diagnostic field and its message is NOT rewritten to the canonical hang-up
string — the stripping and rewriting at index.ts lines 177-188 are guarded
by `error["isAxiosError"]`. -/
theorem C9_counterexample :
    (dispatchSettle ext0 (fun _ => Outcome.err hangNonAxios) req0).2 =
      Settlement.rejected
        { err := hangNonAxios, request := req0, response := none } ∧
    hangNonAxios.hasCode = true ∧
    hangNonAxios.message ≠ "net::ERR_EMPTY_RESPONSE at " ++ req0.url := by
  refine ⟨rfl, rfl, by decide⟩

/-- C9 (amended): whenever `dispatch` rejects, the rejection carries the
final request and a `null` response (the attempt that caused the rejection
threw, so its `response` variable is undefined); and IF the thrown error was
an axios error, the diagnostic fields `code`, `config`, `isAxiosError` and
`toJSON` are all removed, and additionally, if the cause was a hang-up, the
message is rewritten to the canonical `net::ERR_EMPTY_RESPONSE at <url>`
string. -/
theorem C9_amended (ext : Externals) (t : Nat → Outcome) (req : Req) (e : Err)
    (_hrej : (dispatchSettle ext t req).2 =
      Settlement.rejected (finalizeError e req)) :
    (finalizeError e req).request = req ∧
    (finalizeError e req).response = none ∧
    (e.isAxiosError = true →
      ((finalizeError e req).err.hasCode = false ∧
       (finalizeError e req).err.hasConfig = false ∧
       (finalizeError e req).err.hasToJSON = false ∧
       (finalizeError e req).err.isAxiosError = false)) ∧
    (e.isAxiosError = true → hangUp e.message = true →
      (finalizeError e req).err.message =
        "net::ERR_EMPTY_RESPONSE at " ++ req.url) := by
  refine ⟨rfl, rfl, fun hax => ?_, fun hax hgone => ?_⟩
  · simp only [finalizeError, hax]
    by_cases hg : hangUp e.message = true <;> simp [hg]
  · simp [finalizeError, hax, hgone]

/-- C9 witness: the amended statement for an always-hanging-up axios error
with `retries = 0`. -/
theorem C9_amended_witness :
    (dispatchSettle ext0 (fun _ => Outcome.err axiosHangErr) req0).2 =
      Settlement.rejected (finalizeError axiosHangErr req0) ∧
    axiosHangErr.isAxiosError = true ∧
    hangUp axiosHangErr.message = true ∧
    ((finalizeError axiosHangErr req0).request = req0 ∧
     (finalizeError axiosHangErr req0).response = none ∧
     (axiosHangErr.isAxiosError = true →
       ((finalizeError axiosHangErr req0).err.hasCode = false ∧
        (finalizeError axiosHangErr req0).err.hasConfig = false ∧
        (finalizeError axiosHangErr req0).err.hasToJSON = false ∧
        (finalizeError axiosHangErr req0).err.isAxiosError = false)) ∧
     (axiosHangErr.isAxiosError = true → hangUp axiosHangErr.message = true →
       (finalizeError axiosHangErr req0).err.message =
         "net::ERR_EMPTY_RESPONSE at " ++ req0.url)) :=
  ⟨rfl, rfl, rfl,
    C9_amended ext0 (fun _ => Outcome.err axiosHangErr) req0 axiosHangErr rfl⟩

/-! ### Decoding-pipeline helper lemmas -/

/-- Every branch of `decodeBody` records the same eagerly-computed detector
flag. -/
theorem decodeBody_detectorUsed (ext : Externals) (req : Req) (resH : HMap)
    (lang : String) (bytes : List Nat) :
    (decodeBody ext req resH lang bytes).detectorUsed =
      (resolveCharset ext req.responseCharset
        (resolveContentType resH req.headers).charset lang bytes).2 := by
  unfold decodeBody
  dsimp only
  repeat' split
  all_goals rfl

/-- In auto-detect mode (no forced `responseType`, classified type neither
`buffer` nor `octet-stream`), `decodeBody` runs the auto-detect branch. -/
theorem decodeBody_auto_eq (ext : Externals) (req : Req) (resH : HMap)
    (lang : String) (bytes : List Nat) (hrt : req.responseType = none)
    (hb : (resolveContentType resH req.headers).type ≠ "buffer")
    (ho : (resolveContentType resH req.headers).type ≠ "octet-stream") :
    decodeBody ext req resH lang bytes =
      { result := autoDecode ext (resolveContentType resH req.headers)
          (resolveCharset ext req.responseCharset
            (resolveContentType resH req.headers).charset lang bytes).1 bytes
        detectorUsed := (resolveCharset ext req.responseCharset
          (resolveContentType resH req.headers).charset lang bytes).2 } := by
  unfold decodeBody
  rw [hrt]
  simp [jsStr, hb, ho]

/-- The auto-detect branch always produces a result. -/
theorem autoDecode_isSome (ext : Externals) (ri : CTInfo)
    (charset : Option String) (bytes : List Nat) :
    (autoDecode ext ri charset bytes).isSome = true := by
  unfold autoDecode
  repeat' split
  all_goals simp

/-! ### C4 -/

/-- C4 counterexample: with a `text/html` response, no resolvable charset
(the detector returns null) and a ZERO-LENGTH body, auto-detect yields
`(text, "")` — not the `(buffer, original bytes)` downgrade the claim
asserts for the no-charset case (the zero-length check at index.ts line 412
precedes the charset check). -/
theorem C4_counterexample :
    (resolveContentType hdrsHtml req0.headers).pfx = "text" ∧
    (resolveCharset ext0 req0.responseCharset
      (resolveContentType hdrsHtml req0.headers).charset "en-US" []).1 = none ∧
    (decodeBody ext0 req0 hdrsHtml "en-US" []).result =
      some ("text", MsgData.text "") ∧
    (decodeBody ext0 req0 hdrsHtml "en-US" []).result ≠
      some ("buffer", MsgData.buffer []) := by
  refine ⟨rfl, rfl, rfl, ?_⟩
  intro hcon
  have h1 : (decodeBody ext0 req0 hdrsHtml "en-US" []).result =
      some ("text", MsgData.text "") := rfl
  rw [h1] at hcon
  have h2 := congrArg (fun o => Option.map Prod.fst o) hcon
  simp only [Option.map_some] at h2
  exact absurd h2 (by decide)

/-- C4 (amended): in auto-detect mode (no forced `responseType`, classified
type neither `buffer` nor `octet-stream`) decoding always produces a result
and never raises; the result downgrades to `(buffer, original bytes)` when
the classifier prefix is not `text` / `application` / `*`, or — for a
NON-EMPTY body — when no charset resolves, when `iconv.decode` throws, or
when the JSON/XML conversion throws; a zero-length body instead yields
`(text, "")` whenever the prefix is in the allowed set. -/
theorem C4_amended (ext : Externals) (req : Req) (resH : HMap) (lang : String)
    (bytes : List Nat) (c s : String)
    (hrt : req.responseType = none)
    (hb : (resolveContentType resH req.headers).type ≠ "buffer")
    (ho : (resolveContentType resH req.headers).type ≠ "octet-stream") :
    ((decodeBody ext req resH lang bytes).result).isSome = true ∧
    ((resolveContentType resH req.headers).pfx ≠ "text" →
     (resolveContentType resH req.headers).pfx ≠ "application" →
     (resolveContentType resH req.headers).pfx ≠ "*" →
      (decodeBody ext req resH lang bytes).result =
        some ("buffer", MsgData.buffer bytes)) ∧
    (bytes ≠ [] →
      jsStr (resolveCharset ext req.responseCharset
        (resolveContentType resH req.headers).charset lang bytes).1 = none →
      (decodeBody ext req resH lang bytes).result =
        some ("buffer", MsgData.buffer bytes)) ∧
    (bytes ≠ [] →
      jsStr (resolveCharset ext req.responseCharset
        (resolveContentType resH req.headers).charset lang bytes).1 = some c →
      ext.iconvDecode bytes c = none →
      (decodeBody ext req resH lang bytes).result =
        some ("buffer", MsgData.buffer bytes)) ∧
    (bytes ≠ [] →
      jsStr (resolveCharset ext req.responseCharset
        (resolveContentType resH req.headers).charset lang bytes).1 = some c →
      ext.iconvDecode bytes c = some s →
      (resolveContentType resH req.headers).type = "json" →
      ext.jsonParse s = none →
      (decodeBody ext req resH lang bytes).result =
        some ("buffer", MsgData.buffer bytes)) ∧
    (bytes ≠ [] →
      jsStr (resolveCharset ext req.responseCharset
        (resolveContentType resH req.headers).charset lang bytes).1 = some c →
      ext.iconvDecode bytes c = some s →
      (resolveContentType resH req.headers).type = "xml" →
      ext.xmlParse s = none →
      (decodeBody ext req resH lang bytes).result =
        some ("buffer", MsgData.buffer bytes)) := by
  rw [decodeBody_auto_eq ext req resH lang bytes hrt hb ho]
  refine ⟨autoDecode_isSome ext _ _ bytes, fun h1 h2 h3 => ?_,
    fun hB hcs => ?_, fun hB hcs hic => ?_,
    fun hB hcs hic hty hjp => ?_, fun hB hcs hic hty hxp => ?_⟩
  · simp [autoDecode, h1, h2, h3]
  · unfold autoDecode
    split <;> simp [hcs, List.length_eq_zero, hB]
  · unfold autoDecode
    split <;> simp [hcs, hic, List.length_eq_zero, hB]
  · unfold autoDecode
    split <;> simp [hcs, hic, List.length_eq_zero, hB, hty, hjp]
  · unfold autoDecode
    split <;> simp [hcs, hic, List.length_eq_zero, hB, hty, hxp]

/-- C4 witness: the amended statement for an `image/png` response (prefix
outside the allowed set) with a one-byte body: the result exists and is the
buffer downgrade. -/
theorem C4_amended_witness :
    (req0.responseType = none ∧
     (resolveContentType [("content-type", "image/png")] req0.headers).type ≠ "buffer" ∧
     (resolveContentType [("content-type", "image/png")] req0.headers).type ≠ "octet-stream") ∧
    ((decodeBody ext0 req0 [("content-type", "image/png")] "en-US" [7]).result).isSome = true :=
  ⟨⟨rfl, by decide, by decide⟩,
    (C4_amended ext0 req0 [("content-type", "image/png")] "en-US" [7] "x" "y"
      rfl (by decide) (by decide)).1⟩

/-! ### C6 -/

/-- C6 counterexample: decoding a zero-length body with
`responseType = "text"` and no header-derived charset DOES invoke a charset
detector — the detector IIFE is the third operand of the eagerly-evaluated
`||` chain at index.ts lines 347-356, which runs before the zero-length check
(its result is then unused). -/
theorem C6_counterexample :
    (decodeBody ext0 reqTextMode hdrsHtml "en-US" []).result =
      some ("text", MsgData.text "") ∧
    (decodeBody ext0 reqTextMode hdrsHtml "en-US" []).detectorUsed = true := by
  exact ⟨rfl, rfl⟩

/-- C6 (amended): for `responseType = "text"` and a zero-length body, the
decoded result is always `(text, "")`; however, a charset detector is
invoked (eagerly, its result unused) exactly when neither
`request.responseCharset` nor the classifier charset is a non-empty
string. -/
theorem C6_amended (ext : Externals) (req : Req) (resH : HMap) (lang : String)
    (h : req.responseType = some "text") :
    (decodeBody ext req resH lang []).result = some ("text", MsgData.text "") ∧
    ((decodeBody ext req resH lang []).detectorUsed = true ↔
      (jsStr req.responseCharset = none ∧
       jsStr (resolveContentType resH req.headers).charset = none)) := by
  have hjs : jsStr req.responseType = some "text" := by rw [h]; rfl
  constructor
  · unfold decodeBody
    rw [hjs]
    simp [forcedDecode]
    rw [if_neg (by decide)]
  · rw [decodeBody_detectorUsed]
    exact resolveCharset_used ext req.responseCharset
      (resolveContentType resH req.headers).charset lang []

/-- C6 witness: the amended statement for a charset-less `text/html`
response. -/
theorem C6_amended_witness :
    reqTextMode.responseType = some "text" ∧
    (decodeBody ext0 reqTextMode hdrsHtml "fr" []).result =
      some ("text", MsgData.text "") :=
  ⟨rfl, (C6_amended ext0 reqTextMode hdrsHtml "fr" rfl).1⟩

/-! ### C7 -/

/-- C7 counterexample: storing the response header under the key
`Content-Type` instead of `content-type` changes the classification — the
response-side lookup at utils.ts line 86 is an exact property access
`resHeaders["content-type"]`, not a case-insensitive `getHeader` scan. -/
theorem C7_counterexample :
    resolveContentType [("Content-Type", "application/json")] [] ≠
      resolveContentType [("content-type", "application/json")] [] := by
  decide

/-- C7 (amended): the request-side `accept` lookup is case-insensitive (any
key lower-casing to `accept` classifies identically to the key `accept`),
while the response-side `content-type` lookup requires the exact lower-case
key: a header stored under exactly `content-type` with a non-empty value is
always used. -/
theorem C7_amended (resH reqH : HMap) (k v ct : String)
    (hk : lowerStr k = "accept") (hct : ct ≠ "") :
    resolveContentType resH [(k, v)] = resolveContentType resH [("accept", v)] ∧
    resolveContentType (("content-type", ct) :: resH) reqH =
      extractContentType ct := by
  constructor
  · have ha : lowerStr "accept" = "accept" := rfl
    have h1 : getHeader [(k, v)] "accept" = some v := by
      simp [getHeader, ha, hk]
    have h2 : getHeader [("accept", v)] "accept" = some v := by
      simp [getHeader, ha]
    unfold resolveContentType
    rw [h1, h2]
  · have hl : lookupStr (("content-type", ct) :: resH) "content-type" =
        some ct := by
      simp [lookupStr, List.lookup]
    unfold resolveContentType
    rw [hl]
    simp [hct]

/-- C7 witness: the amended statement at the key `Accept` and the content
type `application/json`. -/
theorem C7_amended_witness :
    lowerStr "Accept" = "accept" ∧ ("application/json" : String) ≠ "" ∧
    (resolveContentType [] [("Accept", "text/xml")] =
      resolveContentType [] [("accept", "text/xml")] ∧
     resolveContentType (("content-type", "application/json") :: []) [] =
       extractContentType "application/json") :=
  ⟨by decide, by decide,
    C7_amended [] [] "Accept" "text/xml" "application/json" (by decide) (by decide)⟩

/-! ### C8 -/

/-- The implemented classifier chain agrees pointwise with the
specification's priority chain (reading a missing or empty header as
absent, as JavaScript `||` falsiness does). -/
theorem resolve_eq_spec (resH reqH : HMap) :
    resolveContentType resH reqH =
      extractContentType (specContentTypeChain resH reqH) := by
  unfold resolveContentType specContentTypeChain
  cases hct : lookupStr resH "content-type" with
  | some ct =>
    by_cases hc : ct = ""
    · subst hc
      cases hacc : getHeader reqH "accept" with
      | none => simp [jsStr]
      | some a =>
        by_cases ha : a = ""
        · subst ha
          have hf : firstCommaPart "" = "" := rfl
          simp [jsStr, hf]
        · by_cases hf : firstCommaPart a = ""
          · simp [jsStr, ha, hf]
          · simp [jsStr, ha, hf]
    · simp [jsStr, hc]
  | none =>
    cases hacc : getHeader reqH "accept" with
    | none => simp [jsStr]
    | some a =>
      by_cases ha : a = ""
      · subst ha
        have hf : firstCommaPart "" = "" := rfl
        simp [jsStr, hf]
      · by_cases hf : firstCommaPart a = ""
        · simp [jsStr, ha, hf]
        · simp [jsStr, ha, hf]

/-- C8: the classifier uses the response `content-type` when present (and
non-empty), else the first comma-separated value of the request's `accept`
header, else `text/plain; charset=UTF-8` — stated as pointwise agreement
with the spec-side chain `specContentTypeChain`; and in the scenario with no
`content-type`, `accept: application/json` and byte body `\x7b"a":1\x7d`,
auto-detect decoding yields the parsed JSON object (for any detector
resolving a charset under which the bytes decode to that JSON text). -/
theorem C8_chain_and_scenario (resH reqH : HMap) (ext : Externals) (cs : String)
    (h1 : ext.detectGeneral c8Bytes = some cs) (h2 : cs ≠ "")
    (h3 : ext.iconvDecode c8Bytes cs = some c8Text)
    (h4 : ext.jsonParse c8Text = some c8Json) :
    resolveContentType resH reqH =
      extractContentType (specContentTypeChain resH reqH) ∧
    (decodeBody ext c8Req [] "en-US" c8Bytes).result =
      some ("json", MsgData.json c8Json) := by
  refine ⟨resolve_eq_spec resH reqH, ?_⟩
  have hri : resolveContentType [] c8Req.headers =
      { type := "json", pfx := "application", charset := none } := rfl
  have hcsv : resolveCharset ext c8Req.responseCharset none "en-US" c8Bytes =
      (ext.detectGeneral c8Bytes, true) := by
    show (if (strContainsSub "en-US" "zh" || strContainsSub "en-US" "jp"
          || strContainsSub "en-US" "ko") = true
        then (ext.detectEastAsia c8Bytes, true)
        else (ext.detectGeneral c8Bytes, true)) =
      (ext.detectGeneral c8Bytes, true)
    rw [if_neg (by decide)]
  rw [decodeBody_auto_eq ext c8Req [] "en-US" c8Bytes rfl (by decide) (by decide)]
  rw [hri]
  dsimp only
  rw [hcsv, h1]
  have hlen : c8Bytes.length = 7 := rfl
  simp [autoDecode, jsStr, h2, hlen, h3, h4]

/-- C8 witness: the chain agreement at concrete header maps, and the
scenario for externals that detect UTF-8 and decode the scenario bytes to
the scenario text. -/
theorem C8_witness :
    (extC8.detectGeneral c8Bytes = some "utf-8" ∧ ("utf-8" : String) ≠ "" ∧
     extC8.iconvDecode c8Bytes "utf-8" = some c8Text ∧
     extC8.jsonParse c8Text = some c8Json) ∧
    (resolveContentType [("content-type", "text/html; charset=gbk")]
        [("accept", "application/json, text/plain")] =
      extractContentType (specContentTypeChain
        [("content-type", "text/html; charset=gbk")]
        [("accept", "application/json, text/plain")]) ∧
     (decodeBody extC8 c8Req [] "en-US" c8Bytes).result =
       some ("json", MsgData.json c8Json)) :=
  ⟨⟨rfl, by decide, rfl, rfl⟩,
    C8_chain_and_scenario [("content-type", "text/html; charset=gbk")]
      [("accept", "application/json, text/plain")] extC8 "utf-8"
      rfl (by decide) rfl rfl⟩

/-! ### C10 -/

/-- The forced branch only produces the types `text` and `json`. -/
theorem forcedDecode_type_mem (ext : Externals) (rt ct : String)
    (charset : Option String) (bytes : List Nat) (ty : String) (d : MsgData)
    (h : forcedDecode ext rt ct charset bytes = some (ty, d)) :
    ty = "text" ∨ ty = "json" := by
  unfold forcedDecode at h
  dsimp only at h
  repeat' split at h
  all_goals simp_all

/-- The auto-detect branch only produces the types `text`, `json` and
`buffer`. -/
theorem autoDecode_type_mem (ext : Externals) (ri : CTInfo)
    (charset : Option String) (bytes : List Nat) (ty : String) (d : MsgData)
    (h : autoDecode ext ri charset bytes = some (ty, d)) :
    ty = "text" ∨ ty = "json" ∨ ty = "buffer" := by
  unfold autoDecode at h
  repeat' split at h
  all_goals simp_all

/-- Every decoded result's type is `text`, `json` or `buffer`. -/
theorem decodeBody_type_mem (ext : Externals) (req : Req) (resH : HMap)
    (lang : String) (bytes : List Nat) (ty : String) (d : MsgData)
    (h : (decodeBody ext req resH lang bytes).result = some (ty, d)) :
    ty = "text" ∨ ty = "json" ∨ ty = "buffer" := by
  unfold decodeBody at h
  dsimp only at h
  split at h
  · simp only [] at h
    have := congrArg (fun o => Option.map Prod.fst o) h
    simp only [Option.map_some] at this
    right; right
    exact (Option.some.inj this).symm
  · split at h
    · have := forcedDecode_type_mem _ _ _ _ _ _ _ h
      tauto
    · exact autoDecode_type_mem _ _ _ _ _ _ h

/-- `fixResponse` preserves the type except for the opportunistic upgrade to
`json`. -/
theorem fixResponse_type (ext : Externals) (res : Resp) (req : Req) :
    (fixResponse ext res req).type = res.type ∨
      (fixResponse ext res req).type = "json" := by
  unfold fixResponse
  dsimp only
  repeat' split
  all_goals simp

/-- C10: every `(type, data)` pair produced by the decoding pipeline has a
type among exactly `text`, `json`, `buffer`, and the post-processing JSON
upgrade in `fixResponse` keeps any such response's type in that set. -/
theorem C10_type_invariant (ext : Externals) (req : Req) (resH : HMap)
    (lang : String) (bytes : List Nat) (ty : String) (d : MsgData) (res : Resp)
    (h : (decodeBody ext req resH lang bytes).result = some (ty, d))
    (hres : res.type = ty) :
    (ty = "text" ∨ ty = "json" ∨ ty = "buffer") ∧
    ((fixResponse ext res req).type = "text" ∨
     (fixResponse ext res req).type = "json" ∨
     (fixResponse ext res req).type = "buffer") := by
  have h1 := decodeBody_type_mem ext req resH lang bytes ty d h
  refine ⟨h1, ?_⟩
  rcases fixResponse_type ext res req with h2 | h2
  · rw [h2, hres]
    exact h1
  · right; left; exact h2

/-- C10 witness: the invariant at a concrete auto-detect buffer downgrade. -/
theorem C10_witness :
    ((decodeBody ext0 req0 hdrsHtml "en-US" [7]).result =
      some ("buffer", MsgData.buffer [7]) ∧
     respBuf.type = "buffer") ∧
    (("buffer" = "text" ∨ ("buffer" : String) = "json" ∨
      ("buffer" : String) = "buffer") ∧
     ((fixResponse ext0 respBuf req0).type = "text" ∨
      (fixResponse ext0 respBuf req0).type = "json" ∨
      (fixResponse ext0 respBuf req0).type = "buffer")) :=
  ⟨⟨rfl, rfl⟩,
    C10_type_invariant ext0 req0 hdrsHtml "en-US" [7] "buffer"
      (MsgData.buffer [7]) respBuf rfl rfl⟩

end SmartFetch
